import Mathlib

/-!
Shallow embedding of `src/ds310.c`, a Linux character-device driver giving
user space raw register access to an I2C sensor at address 0x77.

Modelling conventions:
* Machine bytes (`uint8_t`) are `Nat` with explicit `% 256` exactly where the
  C code truncates (assignments into `uint8_t` variables).
* The bus-facing calls `i2c_smbus_read_byte_data` / `i2c_smbus_write_byte_data`
  and the user-copy calls `copy_to_user` / `copy_from_user` are external kernel
  APIs; their outcomes enter the model as parameters: `busRead : Int` is the
  `int` result of the smbus read (negative on bus error), `notCopied : Nat` is
  the number of bytes the user copy failed to transfer (the kernel guarantees
  `notCopied ≤ requested`; theorems state that bound as a hypothesis where it
  matters).
* Side effects on the bus and the registration/unwind calls of probe are
  recorded as explicit traces (`List I2COp`, `List ProbeCall`), in the order
  the C code issues them.
-/

/-- Bus operations issued through the i2c smbus helpers. -/
inductive I2COp where
  | readByteData : Nat → I2COp
  | writeByteData : Nat → Nat → I2COp
deriving DecidableEq, Repr

/-- Observable outcome of one call of `ds310_sensor_read` (src/ds310.c:74-90):
the `ssize_t` return value, the bytes delivered to the user buffer, and the
driver state (cached `register_value`, file `*offset`) after the call. -/
structure ReadEffect where
  ret : Int
  delivered : List Nat
  register_value' : Nat
  offset' : Int
deriving DecidableEq, Repr

/-- Embedding of `ds310_sensor_read` (src/ds310.c:74-90).

The body computes `to_copy = min(length, sizeof(register_value))` with
`sizeof(register_value) = 1`, copies `to_copy` bytes of `&register_value` to
user space (`notCopied` of them fail), and returns the `uint8_t` difference
`delta = to_copy - not_copied`.  `to_copy`, `not_copied` and `delta` are all
`uint8_t` in the C code, hence the `% 256` truncations.  The body never
assigns `register_value` or `*offset`, so both come back unchanged. -/
def ds310_sensor_read (register_value : Nat) (offset : Int) (length : Nat)
    (notCopied : Nat) : ReadEffect :=
  let to_copy := min length 1
  let not_copied := notCopied % 256
  let delta := (to_copy + 256 - not_copied) % 256
  { ret := (delta : Int)
    delivered := List.take (to_copy - not_copied) [register_value]
    register_value' := register_value
    offset' := offset }

/-- Observable outcome of one call of `ds310_sensor_write`
(src/ds310.c:95-127): the new cached `register_value`, the `ssize_t` return
value, the bus operations issued, the number of bytes taken from the user
buffer, and whether the wrong-length error branch ran its `printk(KERN_ERR)`. -/
structure WriteEffect where
  register_value' : Nat
  ret : Int
  ops : List I2COp
  consumed : Nat
  logged_wrong_length : Bool
deriving DecidableEq, Repr

/-- Embedding of `ds310_sensor_write` (src/ds310.c:95-127).

`to_copy = min(length, sizeof(buffer))` with `sizeof(buffer) = 2`;
`copy_from_user` transfers the first `to_copy - notCopied` user bytes into the
zero-initialised `buffer[2]` (the kernel zero-fills the uncopied tail, and the
buffer starts at `{0}`, so untransferred slots read 0).  `user i` is byte `i`
of the user buffer.  Then:
* `length == 1`: `register_value = i2c_smbus_read_byte_data(client, buffer[0])`
  — the `int` result `busRead` is truncated into the `uint8_t` global, i.e.
  reduced mod 256;
* `length == 2`: `i2c_smbus_write_byte_data(client, buffer[0], buffer[1])`,
  `register_value` untouched;
* otherwise: `printk(KERN_ERR ...)`, no bus traffic, `register_value` untouched.
In every branch the return value is the `uint8_t` difference
`delta = to_copy - not_copied`. -/
def ds310_sensor_write (register_value : Nat) (length : Nat) (user : Nat → Nat)
    (notCopied : Nat) (busRead : Int) : WriteEffect :=
  let to_copy := min length 2
  let not_copied := notCopied % 256
  let copied := to_copy - not_copied
  let buffer : Nat → Nat := fun i => if i < copied then user i % 256 else 0
  let delta := (to_copy + 256 - not_copied) % 256
  if length = 1 then
    { register_value' := (busRead % 256).toNat
      ret := (delta : Int)
      ops := [I2COp.readByteData (buffer 0)]
      consumed := copied
      logged_wrong_length := false }
  else if length = 2 then
    { register_value' := register_value
      ret := (delta : Int)
      ops := [I2COp.writeByteData (buffer 0) (buffer 1)]
      consumed := copied
      logged_wrong_length := false }
  else
    { register_value' := register_value
      ret := (delta : Int)
      ops := []
      consumed := copied
      logged_wrong_length := true }

/-- DS310_SENSOR_ADDRESS (src/ds310.c:27). -/
def DS310_SENSOR_ADDRESS : Nat := 0x77

/-- Registration and unwind calls `ds310_sensor_probe` can make
(src/ds310.c:144-203), in its vocabulary. -/
inductive ProbeCall where
  | allocChrdevRegion
  | classCreate
  | deviceCreate
  | cdevInit
  | cdevAdd
  | deviceDestroy
  | classDestroy
  | unregisterChrdev
deriving DecidableEq, Repr

/-- Results the kernel returns to probe's four fallible calls.  Pointers are
modelled as integers with NULL = 0 (the C code only ever compares these
pointers against NULL). -/
structure ProbeEnv where
  alloc_chrdev_region : Int
  class_create : Int
  device_create : Int
  cdev_add : Int
deriving DecidableEq, Repr

/-- Return value of probe together with the ordered trace of
registration/unwind calls it made. -/
structure ProbeResult where
  ret : Int
  calls : List ProbeCall
deriving DecidableEq, Repr

/-- Embedding of `ds310_sensor_probe` (src/ds310.c:144-203).

`addr` is `client->addr`; the C guard's second disjunct
`id->name != DRIVER_NAME` is a pointer comparison, modelled by the Boolean
`idNameMatches` (true when the pointers are equal).  On guard failure probe
returns -ENODEV (-19) before any registration.  Otherwise the four fallible
calls run in order with the C code's own checks: `alloc_chrdev_region(...) < 0`,
`class_create(...) == NULL`, `device_create(...) == NULL`,
`cdev_add(...) == -1`; each failure jumps to the matching `goto` label of the
unwind ladder (src/ds310.c:195-202) and returns -1. -/
def ds310_sensor_probe (addr : Nat) (idNameMatches : Bool) (env : ProbeEnv) :
    ProbeResult :=
  if addr ≠ DS310_SENSOR_ADDRESS ∨ idNameMatches = false then
    { ret := -19, calls := [] }
  else if env.alloc_chrdev_region < 0 then
    { ret := -1, calls := [ProbeCall.allocChrdevRegion] }
  else if env.class_create = 0 then
    { ret := -1
      calls := [ProbeCall.allocChrdevRegion, ProbeCall.classCreate,
                ProbeCall.unregisterChrdev] }
  else if env.device_create = 0 then
    { ret := -1
      calls := [ProbeCall.allocChrdevRegion, ProbeCall.classCreate,
                ProbeCall.deviceCreate, ProbeCall.classDestroy,
                ProbeCall.unregisterChrdev] }
  else if env.cdev_add = -1 then
    { ret := -1
      calls := [ProbeCall.allocChrdevRegion, ProbeCall.classCreate,
                ProbeCall.deviceCreate, ProbeCall.cdevInit, ProbeCall.cdevAdd,
                ProbeCall.deviceDestroy, ProbeCall.classDestroy,
                ProbeCall.unregisterChrdev] }
  else
    { ret := 0
      calls := [ProbeCall.allocChrdevRegion, ProbeCall.classCreate,
                ProbeCall.deviceCreate, ProbeCall.cdevInit, ProbeCall.cdevAdd] }

/-- C1: a 1-byte write whose payload is a register address `a` issues the
single bus operation `readByteData a`, caches the device's register value at
`a` (here `dev a`, the bus returning a successfully read byte), and a
subsequent read of the device file delivers exactly that byte and returns 1. -/
theorem c1_write_addr_then_read (reg0 : Nat) (off : Int) (a : Nat)
    (dev : Nat → Nat) (len : Nat) (ha : a < 256) (hdev : dev a < 256)
    (hlen : 1 ≤ len) :
    (ds310_sensor_write reg0 1 (fun _ => a) 0 (Int.ofNat (dev a))).ops
        = [I2COp.readByteData a] ∧
    (ds310_sensor_write reg0 1 (fun _ => a) 0 (Int.ofNat (dev a))).register_value'
        = dev a ∧
    (ds310_sensor_read
        (ds310_sensor_write reg0 1 (fun _ => a) 0 (Int.ofNat (dev a))).register_value'
        off len 0).delivered = [dev a] ∧
    (ds310_sensor_read
        (ds310_sensor_write reg0 1 (fun _ => a) 0 (Int.ofNat (dev a))).register_value'
        off len 0).ret = 1 := by
  have hmin : min len 1 = 1 := Nat.min_eq_right hlen
  simp [ds310_sensor_write, ds310_sensor_read, hmin, Nat.mod_eq_of_lt ha]
  omega

/-- C1 witness: instantiation at `reg0 = 0`, `a = 5`, a device whose every
register reads 9, and a read of length 1. -/
theorem c1_witness :
    (ds310_sensor_write 0 1 (fun _ => 5) 0 (Int.ofNat 9)).ops
        = [I2COp.readByteData 5] ∧
    (ds310_sensor_write 0 1 (fun _ => 5) 0 (Int.ofNat 9)).register_value' = 9 ∧
    (ds310_sensor_read
        (ds310_sensor_write 0 1 (fun _ => 5) 0 (Int.ofNat 9)).register_value'
        0 1 0).delivered = [9] ∧
    (ds310_sensor_read
        (ds310_sensor_write 0 1 (fun _ => 5) 0 (Int.ofNat 9)).register_value'
        0 1 0).ret = 1 :=
  c1_write_addr_then_read 0 0 5 (fun _ => 9) 1 (by decide) (by decide)
    (by decide)

/-- C2 counterexample: a write of length 3 whose user copy succeeds takes
2 bytes from the user buffer and returns 2, while the claim says no bytes are
consumed and the return value is 0; the error branch does run (it logs). -/
theorem c2_counterexample :
    (ds310_sensor_write 0 3 (fun _ => 0) 0 0).logged_wrong_length = true ∧
    (ds310_sensor_write 0 3 (fun _ => 0) 0 0).consumed ≠ 0 ∧
    (ds310_sensor_write 0 3 (fun _ => 0) 0 0).ret ≠ 0 := by
  refine ⟨by decide, by decide, by decide⟩

/-- C2 amended: a write whose length is neither 1 nor 2 logs an error, issues
no bus operation, and consumes `min(length, 2)` bytes from the user buffer
(0 bytes when the length is 0, 2 bytes when the length exceeds 2), returning
that count minus the bytes not copied — a non-negative value, never an error
code, but equal to 0 only when nothing was actually copied. -/
theorem c2_wrong_length (reg len nc : Nat) (user : Nat → Nat) (b : Int)
    (h1 : len ≠ 1) (h2 : len ≠ 2) (hnc : nc ≤ min len 2) :
    (ds310_sensor_write reg len user nc b).logged_wrong_length = true ∧
    (ds310_sensor_write reg len user nc b).ops = [] ∧
    (ds310_sensor_write reg len user nc b).consumed = min len 2 - nc ∧
    (ds310_sensor_write reg len user nc b).ret = ((min len 2 - nc : Nat) : Int) ∧
    0 ≤ (ds310_sensor_write reg len user nc b).ret := by
  have hnc' : nc < 256 := lt_of_le_of_lt hnc (by omega)
  have hd : (min len 2 + 256 - nc) % 256 = min len 2 - nc := by omega
  simp only [ds310_sensor_write, if_neg h1, if_neg h2, Nat.mod_eq_of_lt hnc', hd]
  refine ⟨by trivial, by trivial, by trivial, by trivial, by positivity⟩

/-- C2 amended witness: at length 3 with a fully successful copy the error is
logged, no bus traffic happens, 2 bytes are consumed and 2 is returned. -/
theorem c2_wrong_length_witness :
    (ds310_sensor_write 0 3 (fun _ => 9) 0 0).logged_wrong_length = true ∧
    (ds310_sensor_write 0 3 (fun _ => 9) 0 0).ops = [] ∧
    (ds310_sensor_write 0 3 (fun _ => 9) 0 0).consumed = min 3 2 - 0 ∧
    (ds310_sensor_write 0 3 (fun _ => 9) 0 0).ret = ((min 3 2 - 0 : Nat) : Int) ∧
    0 ≤ (ds310_sensor_write 0 3 (fun _ => 9) 0 0).ret :=
  c2_wrong_length 0 3 0 (fun _ => 9) 0 (by decide) (by decide) (by decide)

/-- C3: a write whose length is neither 1 nor 2 leaves the cached
register value unchanged, for every payload and copy outcome. -/
theorem c3_wrong_length_frame (reg len nc : Nat) (user : Nat → Nat) (b : Int)
    (h1 : len ≠ 1) (h2 : len ≠ 2) :
    (ds310_sensor_write reg len user nc b).register_value' = reg := by
  simp only [ds310_sensor_write, if_neg h1, if_neg h2]

/-- C3 witness: a length-5 write leaves the cached value 42 in place. -/
theorem c3_wrong_length_frame_witness :
    (ds310_sensor_write 42 5 (fun _ => 7) 0 0).register_value' = 42 :=
  c3_wrong_length_frame 42 5 0 (fun _ => 7) 0 (by decide) (by decide)

/-- C4: a 2-byte write with payload `(a, v)` whose copy succeeds issues the
single bus operation `writeByteData a v`, leaves the cached register value
unchanged, and a subsequent device-file read is indistinguishable from a read
issued before the 2-byte write. -/
theorem c4_write2_frame (reg : Nat) (off : Int) (a v len nc : Nat) (b : Int)
    (ha : a < 256) (hv : v < 256) :
    (ds310_sensor_write reg 2 (fun i => if i = 0 then a else v) 0 b).ops
        = [I2COp.writeByteData a v] ∧
    (ds310_sensor_write reg 2 (fun i => if i = 0 then a else v) 0 b).register_value'
        = reg ∧
    ds310_sensor_read
        (ds310_sensor_write reg 2 (fun i => if i = 0 then a else v) 0 b).register_value'
        off len nc
      = ds310_sensor_read reg off len nc := by
  simp [ds310_sensor_write, Nat.mod_eq_of_lt ha, Nat.mod_eq_of_lt hv]

/-- C4 witness: writing `(addr 3, value 200)` to a cache holding 17 keeps the
cache at 17 and leaves a later read unchanged. -/
theorem c4_write2_frame_witness :
    (ds310_sensor_write 17 2 (fun i => if i = 0 then 3 else 200) 0 0).ops
        = [I2COp.writeByteData 3 200] ∧
    (ds310_sensor_write 17 2 (fun i => if i = 0 then 3 else 200) 0 0).register_value'
        = 17 ∧
    ds310_sensor_read
        (ds310_sensor_write 17 2 (fun i => if i = 0 then 3 else 200) 0 0).register_value'
        0 1 0
      = ds310_sensor_read 17 0 1 0 :=
  c4_write2_frame 17 0 3 200 1 0 0 (by decide) (by decide)

/-- C5: a read of requested length at least 1 whose user copy fully succeeds
delivers exactly one byte, that byte is the cached register value, and the
call returns 1. -/
theorem c5_read_cached (reg : Nat) (off : Int) (len : Nat) (hlen : 1 ≤ len) :
    (ds310_sensor_read reg off len 0).delivered = [reg] ∧
    (ds310_sensor_read reg off len 0).ret = 1 := by
  have hmin : min len 1 = 1 := Nat.min_eq_right hlen
  simp [ds310_sensor_read, hmin]

/-- C5 witness: a length-4 read of a cache holding 99 delivers [99] and
returns 1. -/
theorem c5_read_cached_witness :
    (ds310_sensor_read 99 0 4 0).delivered = [99] ∧
    (ds310_sensor_read 99 0 4 0).ret = 1 :=
  c5_read_cached 99 0 4 (by decide)

/-- C6: probe succeeds only for a client at address 0x77 with the matching
device id name — for every client failing either half of the guard at
src/ds310.c:151 (address not 0x77, or id name not matching), probe returns
-ENODEV (-19), does not succeed, and makes none of the registration calls,
whatever the kernel would have answered. -/
theorem c6_probe_guard_rejects (addr : Nat) (nm : Bool) (env : ProbeEnv)
    (h : addr ≠ DS310_SENSOR_ADDRESS ∨ nm = false) :
    (ds310_sensor_probe addr nm env).ret = -19 ∧
    (ds310_sensor_probe addr nm env).ret ≠ 0 ∧
    (ds310_sensor_probe addr nm env).calls = [] := by
  unfold ds310_sensor_probe
  rw [if_pos h]
  exact ⟨rfl, by decide, rfl⟩

/-- C6 witness: a client at the right address 0x77 but with a mismatched id
name is rejected with -19, probe does not succeed, and no registration call
is made. -/
theorem c6_probe_guard_rejects_witness :
    (ds310_sensor_probe 0x77 false ⟨0, 1, 1, 0⟩).ret = -19 ∧
    (ds310_sensor_probe 0x77 false ⟨0, 1, 1, 0⟩).ret ≠ 0 ∧
    (ds310_sensor_probe 0x77 false ⟨0, 1, 1, 0⟩).calls = [] :=
  c6_probe_guard_rejects 0x77 false ⟨0, 1, 1, 0⟩ (by decide)

/-- C7 failing input: a matching client at 0x77 whose first three allocation
steps succeed and whose `cdev_add` fails with -EBUSY (-16).  The C code tests
`cdev_add(...) == -1` (src/ds310.c:187), so the -16 failure is treated as
success: probe returns 0 and performs no unwinding, against the claim that
every allocation failure is unwound and reported with a negative code. -/
theorem c7_cdev_add_failure_not_unwound :
    (ds310_sensor_probe 0x77 true ⟨0, 1, 1, -16⟩).ret = 0 ∧
    (ds310_sensor_probe 0x77 true ⟨0, 1, 1, -16⟩).calls =
      [ProbeCall.allocChrdevRegion, ProbeCall.classCreate,
       ProbeCall.deviceCreate, ProbeCall.cdevInit, ProbeCall.cdevAdd] := by
  decide

/-- C8: for every copy outcome the kernel can produce (bytes not copied never
exceed the bytes requested), both handlers return min(length, buffer size)
minus the bytes not copied — a non-negative count, never an error code. -/
theorem c8_no_negative_return (reg : Nat) (off : Int) (lenR ncR lenW ncW : Nat)
    (user : Nat → Nat) (b : Int)
    (hR : ncR ≤ min lenR 1) (hW : ncW ≤ min lenW 2) :
    0 ≤ (ds310_sensor_read reg off lenR ncR).ret ∧
    (ds310_sensor_read reg off lenR ncR).ret = ((min lenR 1 - ncR : Nat) : Int) ∧
    0 ≤ (ds310_sensor_write reg lenW user ncW b).ret ∧
    (ds310_sensor_write reg lenW user ncW b).ret
      = ((min lenW 2 - ncW : Nat) : Int) := by
  simp only [ds310_sensor_read, ds310_sensor_write]
  split_ifs <;> dsimp only <;>
    refine ⟨by positivity, by omega, by positivity, by omega⟩

/-- C8 witness: a length-1 read whose copy fails entirely returns 0 and a
length-2 write whose copy loses 1 byte returns 1; neither is negative. -/
theorem c8_no_negative_return_witness :
    0 ≤ (ds310_sensor_read 5 0 1 1).ret ∧
    (ds310_sensor_read 5 0 1 1).ret = ((min 1 1 - 1 : Nat) : Int) ∧
    0 ≤ (ds310_sensor_write 5 2 (fun _ => 9) 1 0).ret ∧
    (ds310_sensor_write 5 2 (fun _ => 9) 1 0).ret
      = ((min 2 2 - 1 : Nat) : Int) :=
  c8_no_negative_return 5 0 1 1 2 1 (fun _ => 9) 0 (by decide) (by decide)

/-- C9: the read handler is pure in the driver state — iterating any number
of reads leaves the cached register value and the file offset exactly where
they started — and, with a working copy, every read of length at least 1 in
such a sequence delivers the same cached byte and returns 1 ≠ 0, so end of
file is never reached. -/
theorem c9_read_preserves_state (reg : Nat) (off : Int) (len nc n : Nat)
    (hlen : 1 ≤ len) :
    (fun s : Nat × Int =>
        ((ds310_sensor_read s.1 s.2 len nc).register_value',
         (ds310_sensor_read s.1 s.2 len nc).offset'))^[n] (reg, off)
      = (reg, off) ∧
    (ds310_sensor_read reg off len 0).delivered = [reg] ∧
    (ds310_sensor_read reg off len 0).ret = 1 ∧
    (ds310_sensor_read reg off len 0).ret ≠ 0 := by
  have hmin : min len 1 = 1 := Nat.min_eq_right hlen
  refine ⟨Function.iterate_fixed rfl n, ?_, ?_, ?_⟩ <;>
    simp [ds310_sensor_read, hmin]

/-- C9 witness: three consecutive length-1 reads of a cache holding 33 leave
the state at (33, 0), deliver [33] and return 1. -/
theorem c9_read_preserves_state_witness :
    (fun s : Nat × Int =>
        ((ds310_sensor_read s.1 s.2 1 0).register_value',
         (ds310_sensor_read s.1 s.2 1 0).offset'))^[3] (33, 0) = (33, 0) ∧
    (ds310_sensor_read 33 0 1 0).delivered = [33] ∧
    (ds310_sensor_read 33 0 1 0).ret = 1 ∧
    (ds310_sensor_read 33 0 1 0).ret ≠ 0 :=
  c9_read_preserves_state 33 0 1 0 3 (by decide)

/-- C10: when the bus read behind a 1-byte write fails with a negative error
code `e`, the assignment into the `uint8_t` cache truncates it to `e mod 256`,
a value in 0..255; the very same cache contents arise from a successful bus
read returning the byte `e mod 256`, so later reads cannot tell the error
apart from data. -/
theorem c10_bus_error_truncated (reg a : Nat) (e : Int) (he : e < 0) :
    (ds310_sensor_write reg 1 (fun _ => a) 0 e).register_value'
      = (e % 256).toNat ∧
    0 ≤ e % 256 ∧ e % 256 < 256 ∧
    (ds310_sensor_write reg 1 (fun _ => a) 0 ((e % 256).toNat : Int)).register_value'
      = (ds310_sensor_write reg 1 (fun _ => a) 0 e).register_value' := by
  refine ⟨by simp [ds310_sensor_write], Int.emod_nonneg e (by norm_num),
    Int.emod_lt_of_pos e (by norm_num), ?_⟩
  simp [ds310_sensor_write]
  omega

/-- C10 witness: a bus error -5 leaves the cache at 251, the same contents a
successful read of the byte 251 would leave. -/
theorem c10_bus_error_truncated_witness :
    (ds310_sensor_write 0 1 (fun _ => 7) 0 (-5)).register_value'
      = ((-5 : Int) % 256).toNat ∧
    0 ≤ (-5 : Int) % 256 ∧ (-5 : Int) % 256 < 256 ∧
    (ds310_sensor_write 0 1 (fun _ => 7) 0 ((((-5 : Int) % 256).toNat : Nat) : Int)).register_value'
      = (ds310_sensor_write 0 1 (fun _ => 7) 0 (-5)).register_value' :=
  c10_bus_error_truncated 0 7 (-5) (by decide)
